import Mathlib

/-!
Shallow embedding of the writesplitter package (src/main.go).

The package implements a rotating write sink:
the struct WriteSplitter holds a limit, a directory, a filename prefix,
a byte-mode flag, two counters and an optional open file handle.
Filesystem effects are modelled explicitly: every call that may touch the
OS takes a scripted outcome (does os.Create succeed, what does the
underlying file write return, ...), and the list of file names created so
far is threaded through as a value of type Fs.
-/

/-- Errors observable in the model.  errNotAFile and errNotADir are the two
package-level sentinel errors of main.go; errFileClosed models the os error
returned when writing to or closing an os.File that is already closed;
the os* constructors stand for arbitrary underlying filesystem errors,
tagged by a number so distinct errors can be told apart. -/
inductive GoErr where
  | errNotAFile
  | errNotADir
  | errFileClosed
  | osCreate (n : Nat)
  | osWrite (n : Nat)
  | osClose (n : Nat)
deriving DecidableEq, Repr

/-- An os.File as far as the sink can observe it: the name it was created
under and whether it is still open.  The sink owns the only reference, so
closing the file is modelled by flipping isOpen on the stored record. -/
structure FileHandle where
  name : String
  isOpen : Bool
deriving DecidableEq, Repr

/-- The WriteSplitter struct of main.go.  Pref models the source field
named Prefix.  numBytes and numLines are the internal counters; handle is
the embedded *os.File, none standing for a nil pointer. -/
structure WriteSplitter where
  Limit : Int
  Dir : String
  Pref : String
  Bytes : Bool
  numBytes : Int
  numLines : Int
  handle : Option FileHandle
deriving DecidableEq, Repr

/-- The external filesystem as the model observes it: the names of the
files created so far, newest first. -/
structure Fs where
  created : List String
deriving DecidableEq, Repr

/-- Splits a character list on the slash character; an empty input yields
one empty component, mirroring strings.Split semantics. -/
def splitSlash : List Char → List (List Char)
  | [] => [[]]
  | c :: rest =>
    let r := splitSlash rest
    if c = '/' then [] :: r
    else
      match r with
      | [] => [[c]]
      | g :: gs => (c :: g) :: gs

/-- One step of the lexical cleaning loop of path/filepath Clean: pushes a
path element onto the stack of kept elements, where a dot-dot element pops
the previous element unless the path is rooted and the stack is empty, or
the previous element is itself a dot-dot. -/
def cleanStep (rooted : Bool) (acc : List (List Char)) (c : List Char) : List (List Char) :=
  if c = ['.', '.'] then
    match acc with
    | [] => if rooted then [] else [c]
    | a :: rest => if a = ['.', '.'] then c :: acc else rest
  else c :: acc

/-- Joins path elements with single slashes. -/
def joinSlash : List (List Char) → List Char
  | [] => []
  | [g] => g
  | g :: gs => g ++ '/' :: joinSlash gs

/-- filepath.Clean for slash-separated paths: shortest lexically equivalent
path.  Empty input yields a dot; repeated slashes, single-dot elements and
resolvable dot-dot elements are eliminated; an empty result becomes a dot
(or a slash for a rooted path). -/
def filepathClean (path : String) : String :=
  if path = "" then "."
  else
    let cs := path.data
    let rooted := cs.head? = some '/'
    let comps := (splitSlash cs).filter (fun c => !(c.isEmpty || c = ['.']))
    let stack := (comps.foldl (cleanStep rooted) []).reverse
    let body := joinSlash stack
    if rooted then ⟨'/' :: body⟩
    else if body.isEmpty then "." else ⟨body⟩

/-- filepath.Join on two elements: empty elements are dropped, the rest are
joined with a slash and the result is cleaned; all-empty input yields the
empty string. -/
def filepathJoin (a b : String) : String :=
  if a ≠ "" then filepathClean (a ++ "/" ++ b)
  else if b ≠ "" then filepathClean b
  else ""

/-- LineSplitter of main.go: a WriteSplitter splitting at the given number
of lines (write calls); Dir and Pref are cleaned, no file is opened. -/
def LineSplitter (limit : Int) (dir pfx : String) : WriteSplitter :=
  { Limit := limit
    Dir := filepathClean dir
    Pref := filepathClean pfx
    Bytes := false
    numBytes := 0
    numLines := 0
    handle := none }

/-- ByteSplitter of main.go: same as LineSplitter with the Bytes flag set. -/
def ByteSplitter (limit : Int) (dir pfx : String) : WriteSplitter :=
  { Limit := limit
    Dir := filepathClean dir
    Pref := filepathClean pfx
    Bytes := true
    numBytes := 0
    numLines := 0
    handle := none }

/-- Scripted outcome of one call to the create method: ts is the formatted
time.Now() timestamp used in the filename, fail is some e when os.Create
fails with the underlying error e. -/
structure CreateEnv where
  ts : String
  fail : Option GoErr
deriving DecidableEq, Repr

/-- The create method of main.go: collapses a bare dot Dir or Pref to the
empty string, computes the filename from Dir, Pref and the timestamp, and
attempts os.Create; on success the new open handle is stored and the file
name recorded in the filesystem, on failure the handle field is set to nil
and the error returned. -/
def WriteSplitter.create (ws : WriteSplitter) (env : CreateEnv) (fs : Fs) :
    WriteSplitter × Fs × Option GoErr :=
  let ws := if ws.Dir = "." then { ws with Dir := "" } else ws
  let ws := if ws.Pref = "." then { ws with Pref := "" } else ws
  let filename := filepathJoin ws.Dir (ws.Pref ++ env.ts)
  match env.fail with
  | none =>
    ({ ws with handle := some { name := filename, isOpen := true } },
     { created := filename :: fs.created }, none)
  | some e => ({ ws with handle := none }, fs, some e)

/-- Closing an os.File: on an open file the scripted result res is
returned and the file becomes closed; on an already closed file the os
returns its file-already-closed error. -/
def FileHandle.close (h : FileHandle) (res : Option GoErr) : FileHandle × Option GoErr :=
  if h.isOpen then ({ h with isOpen := false }, res)
  else (h, some GoErr.errFileClosed)

/-- Writing to an os.File: on an open file the scripted pair res of bytes
written and error is returned; on an already closed file the os returns
zero bytes and its file-already-closed error. -/
def FileHandle.write (h : FileHandle) (res : Int × Option GoErr) : Int × Option GoErr :=
  if h.isOpen then res else (0, some GoErr.errFileClosed)

/-- The Close method of main.go: with a non-nil handle it zeroes both
counters and returns the result of closing the underlying file; the handle
field itself is not cleared.  With a nil handle it returns ErrNotAFile. -/
def WriteSplitter.Close (ws : WriteSplitter) (res : Option GoErr) :
    WriteSplitter × Option GoErr :=
  match ws.handle with
  | some h =>
    let ws := { ws with numLines := 0, numBytes := 0 }
    let hc := h.close res
    ({ ws with handle := some hc.1 }, hc.2)
  | none => (ws, some GoErr.errNotAFile)

/-- The switch condition of Write in main.go: the first case tests byte
mode and the byte counter against the limit and falls through, the second
tests the line counter, so rotation fires when either case is true. -/
def WriteSplitter.rotCond (ws : WriteSplitter) : Bool :=
  (decide (ws.Limit > 0) && ws.Bytes && decide (ws.numBytes ≥ ws.Limit))
  || (decide (ws.Limit > 0) && decide (ws.numLines ≥ ws.Limit))

/-- Scripted outcomes for one call to Write: the create outcome used if a
lazy create happens, the one used if a create after rotation happens, the
result of the underlying close during rotation, and the pair produced by
the underlying file write. -/
structure WriteEnv where
  lazyCreate : CreateEnv
  rotCreate : CreateEnv
  closeRes : Option GoErr
  writeRes : Int × Option GoErr
deriving DecidableEq, Repr

/-- The Write method of main.go: lazily creates a handle when none is
open; evaluates the rotation switch on the current counters and, when it
fires, calls Close (discarding its result) and creates a fresh handle; on
any pending create error returns zero and that error; otherwise writes to
the handle, increments numLines by one and numBytes by the bytes written,
and returns the underlying write result.  The errFileClosed in the inner
none branch stands for the nil-pointer panic Go would hit there; that
branch is unreachable when the pending error is none. -/
def WriteSplitter.Write (ws : WriteSplitter) (p : List Nat) (env : WriteEnv) (fs : Fs) :
    WriteSplitter × Fs × Int × Option GoErr :=
  let s1 :=
    match ws.handle with
    | none => ws.create env.lazyCreate fs
    | some _ => (ws, fs, none)
  let s2 :=
    if s1.1.rotCond then
      (s1.1.Close env.closeRes).1.create env.rotCreate s1.2.1
    else s1
  match s2.2.2 with
  | some e => (s2.1, s2.2.1, 0, some e)
  | none =>
    match s2.1.handle with
    | none => (s2.1, s2.2.1, 0, some GoErr.errFileClosed)
    | some hd =>
      let wr := hd.write env.writeRes
      ({ s2.1 with numLines := s2.1.numLines + 1, numBytes := s2.1.numBytes + wr.1 },
       s2.2.1, wr.1, wr.2)

/-- Runs a sequence of Write calls, each with its own payload and scripted
outcomes, threading the sink state and the filesystem. -/
def runWrites (ws : WriteSplitter) (fs : Fs) : List (List Nat × WriteEnv) → WriteSplitter × Fs
  | [] => (ws, fs)
  | (p, env) :: rest =>
    let r := ws.Write p env fs
    runWrites r.1 r.2.1 rest

/-- Outcome of os.Stat on a path: success with the directory bit of the
FileInfo, or failure with a not-exist error, a permission error, or some
other error; in every failure case the returned FileInfo is nil. -/
inductive StatOutcome where
  | ok (isDir : Bool)
  | notExist
  | permission
  | otherErr
deriving DecidableEq, Repr

/-- Result of CheckDir: nil, a returned error, or the nil-pointer panic
raised when a method is invoked on a nil FileInfo. -/
inductive CheckDirResult where
  | ok
  | err (e : GoErr)
  | nilDerefPanic
deriving DecidableEq, Repr

/-- CheckDir of main.go, with os.Stat abstracted as a function from the
cleaned path to its outcome.  The source condition
os.IsNotExist(e) or not stat.IsDir() or os.IsPermission(e)
evaluates left to right: a not-exist error short-circuits to ErrNotADir,
a nil error reaches the IsDir test on a real FileInfo, but any other stat
failure (permission included) reaches stat.IsDir() with stat nil and
panics. -/
def CheckDir (stat : String → StatOutcome) (dir : String) : CheckDirResult :=
  let dir := filepathClean dir
  match stat dir with
  | StatOutcome.ok isDir =>
    if !isDir then CheckDirResult.err GoErr.errNotADir else CheckDirResult.ok
  | StatOutcome.notExist => CheckDirResult.err GoErr.errNotADir
  | StatOutcome.permission => CheckDirResult.nilDerefPanic
  | StatOutcome.otherErr => CheckDirResult.nilDerefPanic

/-- The empty filesystem: no file created yet. -/
def fsEmpty : Fs := { created := [] }

/-- Scripted outcomes where every OS call succeeds and the underlying
write reports two bytes written. -/
def okEnv : WriteEnv :=
  { lazyCreate := { ts := "T1", fail := none }
    rotCreate := { ts := "T2", fail := none }
    closeRes := none
    writeRes := (2, none) }

/-- Scripted outcomes where every OS call succeeds and the underlying
write reports zero bytes written (an empty payload). -/
def okEnv0 : WriteEnv :=
  { lazyCreate := { ts := "T1", fail := none }
    rotCreate := { ts := "T2", fail := none }
    closeRes := none
    writeRes := (0, none) }

/-- Scripted outcomes where both creates fail with distinct underlying
errors. -/
def failEnv : WriteEnv :=
  { lazyCreate := { ts := "T1", fail := some (GoErr.osCreate 3) }
    rotCreate := { ts := "T2", fail := some (GoErr.osCreate 4) }
    closeRes := none
    writeRes := (1, none) }

/-- Scripted outcomes where the underlying write is partial: one byte
written, then an underlying write error. -/
def pwErrEnv : WriteEnv :=
  { lazyCreate := { ts := "T1", fail := none }
    rotCreate := { ts := "T2", fail := none }
    closeRes := none
    writeRes := (1, some (GoErr.osWrite 9)) }

/-- A line-mode sink mid-life: limit 5, one write of two bytes done, file
open. -/
def wsC1 : WriteSplitter :=
  { Limit := 5, Dir := "d", Pref := "x", Bytes := false
    numBytes := 2, numLines := 1, handle := some { name := "f", isOpen := true } }

/-- A byte-mode sink mid-life whose byte counter has passed the limit. -/
def wsC2 : WriteSplitter :=
  { Limit := 2, Dir := "d", Pref := "x", Bytes := true
    numBytes := 5, numLines := 0, handle := some { name := "f", isOpen := true } }

/-- A byte-mode sink with limit 10 and a freshly opened file, about to
receive an eleven-byte payload. -/
def wsC3 : WriteSplitter :=
  { Limit := 10, Dir := "d", Pref := "x", Bytes := true
    numBytes := 0, numLines := 0, handle := some { name := "f", isOpen := true } }

/-- An eleven-byte payload. -/
def pC3 : List Nat := List.replicate 11 7

/-- Scripted outcomes for writing pC3: all OS calls succeed and the
underlying write reports all eleven bytes written. -/
def envC3 : WriteEnv :=
  { lazyCreate := { ts := "T1", fail := none }
    rotCreate := { ts := "T2", fail := none }
    closeRes := none
    writeRes := (11, none) }

/-- A line-mode sink whose line counter has reached the limit, so the next
write rotates. -/
def wsRot : WriteSplitter :=
  { Limit := 1, Dir := "d", Pref := "x", Bytes := false
    numBytes := 3, numLines := 1, handle := some { name := "f", isOpen := true } }

/-- A fresh line-mode sink followed by one write, an explicit Close, and a
further write: the trace behind the reusability question. -/
def c1afterWrite : WriteSplitter × Fs × Int × Option GoErr :=
  (LineSplitter 5 "d" "x").Write [1, 2] okEnv fsEmpty

/-- The state and result of the explicit Close in the c1 trace. -/
def c1afterClose : WriteSplitter × Option GoErr := c1afterWrite.1.Close none

/-- The write attempted after the explicit Close in the c1 trace. -/
def c1nextWrite : WriteSplitter × Fs × Int × Option GoErr :=
  c1afterClose.1.Write [3] okEnv c1afterWrite.2.1

/-- Byte-mode sink with limit 2 fed three empty writes: first write of the
c2 trace. -/
def c2w1 : WriteSplitter × Fs × Int × Option GoErr :=
  (ByteSplitter 2 "d" "x").Write [] okEnv0 fsEmpty

/-- Second empty write of the c2 trace. -/
def c2w2 : WriteSplitter × Fs × Int × Option GoErr := c2w1.1.Write [] okEnv0 c2w1.2.1

/-- Third empty write of the c2 trace. -/
def c2w3 : WriteSplitter × Fs × Int × Option GoErr := c2w2.1.Write [] okEnv0 c2w2.2.1

/-- Fresh line-mode sink, one write, then two explicit Closes in a row and
a further write: the trace behind the double-close question. -/
def c6w1 : WriteSplitter × Fs × Int × Option GoErr :=
  (LineSplitter 5 "d" "x").Write [1, 2] okEnv fsEmpty

/-- First Close of the c6 trace. -/
def c6close1 : WriteSplitter × Option GoErr := c6w1.1.Close none

/-- Second Close of the c6 trace. -/
def c6close2 : WriteSplitter × Option GoErr := c6close1.1.Close none

/-- Write attempted after the two Closes of the c6 trace. -/
def c6next : WriteSplitter × Fs × Int × Option GoErr :=
  c6close2.1.Write [7] okEnv c6w1.2.1

/-! ## Helper lemmas -/

/-- Projections of a successful create: it opens a fresh handle, records
exactly one new file, returns no error, and leaves limit, mode and the
counters untouched. -/
theorem create_ok_proj (ws : WriteSplitter) (env : CreateEnv) (fs : Fs)
    (hf : env.fail = none) :
    (∃ hd, (ws.create env fs).1.handle = some hd ∧ hd.isOpen = true)
    ∧ (ws.create env fs).2.1.created.length = fs.created.length + 1
    ∧ (ws.create env fs).2.2 = none
    ∧ (ws.create env fs).1.numBytes = ws.numBytes
    ∧ (ws.create env fs).1.numLines = ws.numLines
    ∧ (ws.create env fs).1.Limit = ws.Limit
    ∧ (ws.create env fs).1.Bytes = ws.Bytes := by
  by_cases hd : ws.Dir = "." <;> by_cases hp : ws.Pref = "." <;>
    simp [WriteSplitter.create, hd, hp, hf]

/-- Projections of a failed create: the handle field becomes nil, no file
is recorded, the underlying error is returned, and limit, mode and the
counters are untouched. -/
theorem create_fail_proj (ws : WriteSplitter) (env : CreateEnv) (fs : Fs)
    (e : GoErr) (hf : env.fail = some e) :
    (ws.create env fs).1.handle = none
    ∧ (ws.create env fs).2.1 = fs
    ∧ (ws.create env fs).2.2 = some e
    ∧ (ws.create env fs).1.numBytes = ws.numBytes
    ∧ (ws.create env fs).1.numLines = ws.numLines
    ∧ (ws.create env fs).1.Limit = ws.Limit
    ∧ (ws.create env fs).1.Bytes = ws.Bytes := by
  by_cases hd : ws.Dir = "." <;> by_cases hp : ws.Pref = "." <;>
    simp [WriteSplitter.create, hd, hp, hf]

/-- A sink whose counters are both zero never satisfies the rotation
switch, whatever its limit and mode. -/
theorem rotCond_zero (ws : WriteSplitter) (h1 : ws.numBytes = 0) (h2 : ws.numLines = 0) :
    ws.rotCond = false := by
  unfold WriteSplitter.rotCond
  by_cases hL : ws.Limit > 0
  · have hb : ¬ws.numBytes ≥ ws.Limit := by omega
    have hl : ¬ws.numLines ≥ ws.Limit := by omega
    simp [hb, hl]
  · simp [hL]

/-- A Write on a sink whose handle is open-or-closed but present, with the
rotation switch false, performs no create: it returns the underlying write
result and only bumps the counters. -/
theorem write_open_norot (ws : WriteSplitter) (h : FileHandle) (p : List Nat)
    (env : WriteEnv) (fs : Fs) (hh : ws.handle = some h) (hr : ws.rotCond = false) :
    ws.Write p env fs =
      ({ ws with numLines := ws.numLines + 1,
                 numBytes := ws.numBytes + (h.write env.writeRes).1 },
       fs, (h.write env.writeRes).1, (h.write env.writeRes).2) := by
  unfold WriteSplitter.Write
  rw [hh]
  simp only [hr]
  simp [hh]

/-- The rotation switch only reads the limit, the mode flag and the two
counters, so it agrees on any two states that agree on those fields. -/
theorem rotCond_congr (s t : WriteSplitter) (hL : s.Limit = t.Limit)
    (hB : s.Bytes = t.Bytes) (hb : s.numBytes = t.numBytes)
    (hl : s.numLines = t.numLines) : s.rotCond = t.rotCond := by
  unfold WriteSplitter.rotCond
  rw [hL, hB, hb, hl]

/-- A Write on a sink with a present handle and the rotation switch true,
whose post-rotation create succeeds: exactly one new file is recorded, the
underlying write result is returned unchanged, and the counters restart at
one write and at the bytes just written. -/
theorem write_open_rot (ws : WriteSplitter) (h : FileHandle) (p : List Nat)
    (env : WriteEnv) (fs : Fs) (hh : ws.handle = some h) (hr : ws.rotCond = true)
    (hf : env.rotCreate.fail = none) :
    (ws.Write p env fs).2.1.created.length = fs.created.length + 1
    ∧ (ws.Write p env fs).2.2.1 = env.writeRes.1
    ∧ (ws.Write p env fs).2.2.2 = env.writeRes.2
    ∧ (ws.Write p env fs).1.numLines = 1
    ∧ (ws.Write p env fs).1.numBytes = env.writeRes.1
    ∧ (∃ hd, (ws.Write p env fs).1.handle = some hd ∧ hd.isOpen = true) := by
  by_cases hd : ws.Dir = "." <;> by_cases hp : ws.Pref = "." <;> by_cases ho : h.isOpen <;>
    simp [WriteSplitter.Write, WriteSplitter.Close, WriteSplitter.create,
      FileHandle.close, FileHandle.write, hh, hr, hf, hd, hp, ho]

/-- A Write on a sink with a nil handle whose lazy create succeeds and
whose rotation switch (unchanged by the create) is false: exactly one new
file is recorded, the underlying write result is returned unchanged, and
the counters are bumped from their prior values. -/
theorem write_lazy_norot (ws : WriteSplitter) (p : List Nat)
    (env : WriteEnv) (fs : Fs) (hh : ws.handle = none) (hr : ws.rotCond = false)
    (hf : env.lazyCreate.fail = none) :
    (ws.Write p env fs).2.1.created.length = fs.created.length + 1
    ∧ (ws.Write p env fs).2.2.1 = env.writeRes.1
    ∧ (ws.Write p env fs).2.2.2 = env.writeRes.2
    ∧ (ws.Write p env fs).1.numLines = ws.numLines + 1
    ∧ (ws.Write p env fs).1.numBytes = ws.numBytes + env.writeRes.1
    ∧ (ws.Write p env fs).1.Limit = ws.Limit
    ∧ (∃ hd, (ws.Write p env fs).1.handle = some hd ∧ hd.isOpen = true) := by
  obtain ⟨⟨hd0, hhd, hho⟩, hlen, herr, hb, hl, hL, hB⟩ :=
    create_ok_proj ws env.lazyCreate fs hf
  have hrc : (ws.create env.lazyCreate fs).1.rotCond = false := by
    rw [rotCond_congr (ws.create env.lazyCreate fs).1 ws hL hB hb hl]
    exact hr
  simp only [WriteSplitter.Write, hh, hrc, hhd]
  simp [FileHandle.write, hho, hlen, hb, hl, hL, hhd, herr]

/-! ## Claim theorems -/

/-- C1 counterexample: after one successful write and a successful
explicit Close, the handle reference is still present (not cleared), and
the next write does not create a fresh file and does not succeed: it
returns the file-already-closed error and records no new file. -/
theorem c1_counterexample :
    c1afterClose.2 = none
    ∧ c1afterClose.1.handle ≠ none
    ∧ c1nextWrite.2.2.2 = some GoErr.errFileClosed
    ∧ c1nextWrite.2.1.created.length = 1 := by
  decide

/-- C1 (amended): for every sink with an open handle, Close resets both
counters to zero, closes the underlying file and returns the close
result, but it does not clear the owned-handle reference; consequently a
write after a successful explicit close does not re-create a handle: it
writes to the closed handle, returns zero bytes and the
file-already-closed error, and creates no file. -/
theorem c1_close_then_write (ws : WriteSplitter) (h : FileHandle) (res : Option GoErr)
    (hh : ws.handle = some h) (ho : h.isOpen = true) :
    ws.Close res =
      ({ ws with numLines := 0, numBytes := 0,
                 handle := some { name := h.name, isOpen := false } }, res)
    ∧ ∀ (p : List Nat) (env : WriteEnv) (fs : Fs),
        ((ws.Close res).1.Write p env fs).2.1 = fs
        ∧ ((ws.Close res).1.Write p env fs).2.2.1 = 0
        ∧ ((ws.Close res).1.Write p env fs).2.2.2 = some GoErr.errFileClosed := by
  have hcl : ws.Close res =
      ({ ws with numLines := 0, numBytes := 0,
                 handle := some { name := h.name, isOpen := false } }, res) := by
    simp [WriteSplitter.Close, FileHandle.close, hh, ho]
  refine ⟨hcl, fun p env fs => ?_⟩
  rw [hcl]
  have hrc : ({ ws with numLines := 0, numBytes := 0,
                        handle := some { name := h.name, isOpen := false } }
      : WriteSplitter).rotCond = false := rotCond_zero _ rfl rfl
  have hw := write_open_norot _ { name := h.name, isOpen := false } p env fs rfl hrc
  rw [hw]
  simp [FileHandle.write]

/-- C1 witness: the amended behavior evaluated on a concrete mid-life
sink: Close zeroes the counters but keeps the (now closed) handle, and the
next write fails with the file-already-closed error. -/
theorem c1_witness :
    wsC1.Close none =
      ({ wsC1 with numLines := 0, numBytes := 0,
                   handle := some { name := "f", isOpen := false } }, none)
    ∧ ((wsC1.Close none).1.Write [3] okEnv fsEmpty).2.2.2 = some GoErr.errFileClosed := by
  have hth := c1_close_then_write wsC1 { name := "f", isOpen := true } none rfl rfl
  exact ⟨hth.1, (hth.2 [3] okEnv fsEmpty).2.2⟩

/-- C10: Close on a sink with a present handle zeroes both counters
whatever the underlying close returns, and (for an open handle) returns
exactly the underlying close result, error included: the counter reset is
not rolled back on close failure. -/
theorem c10_close_resets_first (ws : WriteSplitter) (h : FileHandle) (res : Option GoErr)
    (hh : ws.handle = some h) (ho : h.isOpen = true) :
    (ws.Close res).1.numLines = 0
    ∧ (ws.Close res).1.numBytes = 0
    ∧ (ws.Close res).2 = res := by
  simp [WriteSplitter.Close, FileHandle.close, hh, ho]

/-- C10 witness: on a concrete open sink whose underlying close fails,
the counters are still zeroed and the underlying error is returned. -/
theorem c10_witness :
    (wsC1.Close (some (GoErr.osClose 7))).1.numLines = 0
    ∧ (wsC1.Close (some (GoErr.osClose 7))).1.numBytes = 0
    ∧ (wsC1.Close (some (GoErr.osClose 7))).2 = some (GoErr.osClose 7) :=
  c10_close_resets_first wsC1 { name := "f", isOpen := true } (some (GoErr.osClose 7)) rfl rfl

/-- C6 counterexample: a sink that was already explicitly closed does not
return the not-a-file error on a second Close: the stale handle is still
present, so the second Close returns the file-already-closed error of the
underlying close, and a subsequent write fails rather than lazily
re-creating a handle. -/
theorem c6_counterexample :
    c6close1.2 = none
    ∧ c6close2.2 = some GoErr.errFileClosed
    ∧ c6close2.2 ≠ some GoErr.errNotAFile
    ∧ c6next.2.2.2 = some GoErr.errFileClosed := by
  decide

/-- C6 (amended): Close on a sink whose handle reference is nil (a
freshly constructed sink, or one whose last create failed) returns the
not-a-file error and leaves the sink unchanged, and a subsequent write
with a succeeding create lazily opens a file and returns the underlying
write result.  A sink that was already explicitly closed is not such a
sink: its handle reference is stale but non-nil. -/
theorem c6_close_nil_handle (ws : WriteSplitter) (res : Option GoErr)
    (hh : ws.handle = none) (hb : ws.numBytes = 0) (hl : ws.numLines = 0) :
    ws.Close res = (ws, some GoErr.errNotAFile)
    ∧ ∀ (p : List Nat) (env : WriteEnv) (fs : Fs), env.lazyCreate.fail = none →
        (ws.Write p env fs).2.1.created.length = fs.created.length + 1
        ∧ (ws.Write p env fs).2.2.1 = env.writeRes.1
        ∧ (ws.Write p env fs).2.2.2 = env.writeRes.2 := by
  constructor
  · simp [WriteSplitter.Close, hh]
  · intro p env fs hf
    have hw := write_lazy_norot ws p env fs hh (rotCond_zero ws hb hl) hf
    exact ⟨hw.1, hw.2.1, hw.2.2.1⟩

/-- C6 witness: on a freshly constructed sink, Close returns the
not-a-file error and the subsequent write still creates a file. -/
theorem c6_witness :
    (LineSplitter 3 "d" "x").Close none = (LineSplitter 3 "d" "x", some GoErr.errNotAFile)
    ∧ ((LineSplitter 3 "d" "x").Write [1] okEnv fsEmpty).2.1.created.length
        = fsEmpty.created.length + 1 := by
  have hth := c6_close_nil_handle (LineSplitter 3 "d" "x") none rfl rfl rfl
  exact ⟨hth.1, (hth.2 [1] okEnv fsEmpty rfl).1⟩

/-- C5: CheckDir evaluated on the four stat outcomes.  A valid directory
yields no error and both the not-exist and the exists-but-not-a-directory
cases yield the not-a-directory error, as the claim states; but a
permission failure of the stat call leaves the FileInfo nil and the IsDir
test is evaluated before the permission test, so the code panics with a
nil dereference instead of returning the not-a-directory error. -/
theorem c5_checkdir_eval :
    CheckDir (fun _ => StatOutcome.ok true) "somedir" = CheckDirResult.ok
    ∧ CheckDir (fun _ => StatOutcome.ok false) "somedir"
        = CheckDirResult.err GoErr.errNotADir
    ∧ CheckDir (fun _ => StatOutcome.notExist) "somedir"
        = CheckDirResult.err GoErr.errNotADir
    ∧ CheckDir (fun _ => StatOutcome.permission) "somedir"
        = CheckDirResult.nilDerefPanic := by
  decide

/-- C9 counterexample: the constructors do not collapse a bare dot to the
empty string at construction time; a sink built with a dot directory and
dot prefix still carries the dot in both fields. -/
theorem c9_counterexample :
    (LineSplitter 1 "." ".").Dir = "."
    ∧ (LineSplitter 1 "." ".").Pref = "."
    ∧ (ByteSplitter 1 "." ".").Dir = "."
    ∧ ("." : String) ≠ "" := by
  decide

/-- C9 (amended): both constructors canonicalize directory and prefix
with path cleaning (under which a bare dot stays a dot) and create no
file; the collapse of a bare dot to the empty string is performed inside
create, at file-creation time, by mutating the stored fields. -/
theorem c9_construction (limit : Int) (d px : String) (b : Bool) (env : CreateEnv) (fs : Fs) :
    (if b then ByteSplitter limit d px else LineSplitter limit d px).handle = none
    ∧ (if b then ByteSplitter limit d px else LineSplitter limit d px).Dir = filepathClean d
    ∧ (if b then ByteSplitter limit d px else LineSplitter limit d px).Pref = filepathClean px
    ∧ (((if b then ByteSplitter limit d px else LineSplitter limit d px).create env fs).1.Dir
        = if filepathClean d = "." then "" else filepathClean d)
    ∧ (((if b then ByteSplitter limit d px else LineSplitter limit d px).create env fs).1.Pref
        = if filepathClean px = "." then "" else filepathClean px) := by
  cases b <;>
    by_cases hd : filepathClean d = "." <;> by_cases hp : filepathClean px = "." <;>
      cases hE : env.fail <;>
        simp [LineSplitter, ByteSplitter, WriteSplitter.create, hd, hp, hE]

/-- C2 counterexample: a byte-mode sink with limit 2 that has performed
two empty writes (byte counter still 0) rotates on the third write
because the line counter reached the limit through the fallthrough: a
second file is created although the cumulative bytes written never
reached the limit. -/
theorem c2_counterexample :
    c2w2.1.numBytes = 0
    ∧ c2w2.1.numLines = 2
    ∧ c2w2.2.1.created.length = 1
    ∧ c2w3.2.1.created.length = 2 := by
  decide

/-- C2 (amended): for a byte-mode sink with positive limit and an open
handle, rotation before a write (observable as a new file being created
by that call) is triggered if and only if the byte counter or the line
counter has reached the limit; the write-operation count can trigger
rotation independently via the switch fallthrough. -/
theorem c2_rotation_iff (ws : WriteSplitter) (h : FileHandle) (p : List Nat)
    (env : WriteEnv) (fs : Fs) (hh : ws.handle = some h) (hB : ws.Bytes = true)
    (hL : 0 < ws.Limit) (hf : env.rotCreate.fail = none) :
    ((ws.Write p env fs).2.1.created.length = fs.created.length + 1
      ↔ (ws.Limit ≤ ws.numBytes ∨ ws.Limit ≤ ws.numLines))
    ∧ ((¬ws.Limit ≤ ws.numBytes ∧ ¬ws.Limit ≤ ws.numLines) →
        (ws.Write p env fs).2.1 = fs) := by
  by_cases hcond : ws.Limit ≤ ws.numBytes ∨ ws.Limit ≤ ws.numLines
  · have hrc : ws.rotCond = true := by
      unfold WriteSplitter.rotCond
      have h1 : decide (ws.Limit > 0) = true := decide_eq_true hL
      rcases hcond with hc | hc
      · have h2 : decide (ws.numBytes ≥ ws.Limit) = true := decide_eq_true hc
        simp [h1, h2, hB]
      · have h2 : decide (ws.numLines ≥ ws.Limit) = true := decide_eq_true hc
        simp [h1, h2]
    have hw := write_open_rot ws h p env fs hh hrc hf
    refine ⟨⟨fun _ => hcond, fun _ => hw.1⟩, fun hcon => ?_⟩
    rcases hcond with hc | hc
    · exact absurd hc hcon.1
    · exact absurd hc hcon.2
  · push_neg at hcond
    have hrc : ws.rotCond = false := by
      unfold WriteSplitter.rotCond
      have h2 : decide (ws.numBytes ≥ ws.Limit) = false := decide_eq_false (by omega)
      have h3 : decide (ws.numLines ≥ ws.Limit) = false := decide_eq_false (by omega)
      simp [h2, h3]
    rw [write_open_norot ws h p env fs hh hrc]
    refine ⟨⟨fun habs => absurd habs (by simp), fun hc => ?_⟩, fun _ => rfl⟩
    rcases hc with hc | hc
    · exact absurd hc (by omega)
    · exact absurd hc (by omega)

/-- C2 witness: on a concrete byte-mode sink whose byte counter has
passed the limit, the rotation-iff characterization holds. -/
theorem c2_witness :
    (wsC2.Write [9] okEnv fsEmpty).2.1.created.length = fsEmpty.created.length + 1
      ↔ (wsC2.Limit ≤ wsC2.numBytes ∨ wsC2.Limit ≤ wsC2.numLines) :=
  (c2_rotation_iff wsC2 { name := "f", isOpen := true } [9] okEnv fsEmpty
    rfl rfl (by decide) rfl).1

/-- C3: on a byte-mode sink whose counters are strictly below the limit,
a single write whose payload would itself push the byte counter to or
past the limit creates no new file and is written in full into the
current file, and the next write call is the one that rotates, creating
exactly one new file. -/
theorem c3_rotation_deferred (ws : WriteSplitter) (h : FileHandle) (p : List Nat)
    (env : WriteEnv) (fs : Fs)
    (hh : ws.handle = some h) (ho : h.isOpen = true)
    (hB : ws.Bytes = true) (hL : 0 < ws.Limit)
    (hbl : ws.numBytes < ws.Limit) (hll : ws.numLines < ws.Limit)
    (hres : env.writeRes = ((p.length : Int), none))
    (hover : ws.Limit ≤ ws.numBytes + (p.length : Int)) :
    (ws.Write p env fs).2.1 = fs
    ∧ (ws.Write p env fs).2.2.1 = (p.length : Int)
    ∧ (ws.Write p env fs).2.2.2 = none
    ∧ (ws.Write p env fs).1.numBytes = ws.numBytes + (p.length : Int)
    ∧ ∀ (p2 : List Nat) (env2 : WriteEnv), env2.rotCreate.fail = none →
        ((ws.Write p env fs).1.Write p2 env2 fs).2.1.created.length
          = fs.created.length + 1 := by
  have hrc : ws.rotCond = false := by
    unfold WriteSplitter.rotCond
    have h2 : decide (ws.numBytes ≥ ws.Limit) = false := decide_eq_false (by omega)
    have h3 : decide (ws.numLines ≥ ws.Limit) = false := decide_eq_false (by omega)
    simp [h2, h3]
  have hwr : h.write env.writeRes = ((p.length : Int), none) := by
    simp [FileHandle.write, ho, hres]
  rw [write_open_norot ws h p env fs hh hrc, hwr]
  refine ⟨rfl, rfl, rfl, rfl, fun p2 env2 hf2 => ?_⟩
  have hrc2 : ({ ws with numLines := ws.numLines + 1,
                         numBytes := ws.numBytes + (p.length : Int) }
      : WriteSplitter).rotCond = true := by
    unfold WriteSplitter.rotCond
    have h1 : decide (ws.Limit > 0) = true := decide_eq_true hL
    have h2 : decide (ws.numBytes + (p.length : Int) ≥ ws.Limit) = true :=
      decide_eq_true (by omega)
    simp [h1, h2, hB]
  exact (write_open_rot
    { ws with numLines := ws.numLines + 1, numBytes := ws.numBytes + (p.length : Int) }
    h p2 env2 fs hh hrc2 hf2).1

/-- C3 witness: the spec scenario, byte-mode limit 10 and an eleven-byte
payload: the first write creates no new file and reports eleven bytes
written, and the next write rotates. -/
theorem c3_witness :
    (wsC3.Write pC3 envC3 fsEmpty).2.1 = fsEmpty
    ∧ (wsC3.Write pC3 envC3 fsEmpty).1.numBytes = wsC3.numBytes + (pC3.length : Int)
    ∧ ((wsC3.Write pC3 envC3 fsEmpty).1.Write pC3 envC3 fsEmpty).2.1.created.length
        = fsEmpty.created.length + 1 := by
  have hth := c3_rotation_deferred wsC3 { name := "f", isOpen := true } pC3 envC3 fsEmpty
    rfl rfl rfl (by decide) (by decide) (by decide) (by decide) (by decide)
  exact ⟨hth.1, hth.2.2.2.1, hth.2.2.2.2 pC3 envC3 rfl⟩

/-- C8: whenever a Write call reaches the underlying file write, the line
counter is bumped by exactly one and the byte counter by exactly the
bytes the underlying write reports, and the underlying pair of bytes
written and error is returned unmodified — in the plain path (present
handle, no rotation, covering success, failure and partial writes), in
the rotation path (counters restart from the post-rotation zeros), and in
the lazy-creation path. -/
theorem c8_write_passthru :
    (∀ (ws : WriteSplitter) (h : FileHandle) (p : List Nat) (env : WriteEnv) (fs : Fs),
      ws.handle = some h → ws.rotCond = false →
      ws.Write p env fs =
        ({ ws with numLines := ws.numLines + 1,
                   numBytes := ws.numBytes + (h.write env.writeRes).1 },
         fs, (h.write env.writeRes).1, (h.write env.writeRes).2))
    ∧ (∀ (ws : WriteSplitter) (h : FileHandle) (p : List Nat) (env : WriteEnv) (fs : Fs),
      ws.handle = some h → ws.rotCond = true → env.rotCreate.fail = none →
      (ws.Write p env fs).1.numLines = 1
      ∧ (ws.Write p env fs).1.numBytes = env.writeRes.1
      ∧ (ws.Write p env fs).2.2.1 = env.writeRes.1
      ∧ (ws.Write p env fs).2.2.2 = env.writeRes.2)
    ∧ (∀ (ws : WriteSplitter) (p : List Nat) (env : WriteEnv) (fs : Fs),
      ws.handle = none → ws.rotCond = false → env.lazyCreate.fail = none →
      (ws.Write p env fs).1.numLines = ws.numLines + 1
      ∧ (ws.Write p env fs).1.numBytes = ws.numBytes + env.writeRes.1
      ∧ (ws.Write p env fs).2.2.1 = env.writeRes.1
      ∧ (ws.Write p env fs).2.2.2 = env.writeRes.2) := by
  refine ⟨fun ws h p env fs hh hr => write_open_norot ws h p env fs hh hr,
          fun ws h p env fs hh hr hf => ?_,
          fun ws p env fs hh hr hf => ?_⟩
  · have hw := write_open_rot ws h p env fs hh hr hf
    exact ⟨hw.2.2.2.1, hw.2.2.2.2.1, hw.2.1, hw.2.2.1⟩
  · have hw := write_lazy_norot ws p env fs hh hr hf
    exact ⟨hw.2.2.2.1, hw.2.2.2.2.1, hw.2.1, hw.2.2.1⟩

/-- C8 witness: a concrete partial write (one byte written, then an
underlying error) bumps the counters by one write and one byte and is
returned to the caller unmodified. -/
theorem c8_witness :
    (wsC1.Write [5] pwErrEnv fsEmpty).1.numLines = 2
    ∧ (wsC1.Write [5] pwErrEnv fsEmpty).1.numBytes = 3
    ∧ (wsC1.Write [5] pwErrEnv fsEmpty).2.2 = (1, some (GoErr.osWrite 9)) := by
  have hth := c8_write_passthru.1 wsC1 { name := "f", isOpen := true } [5] pwErrEnv
    fsEmpty rfl (by decide)
  rw [hth]
  decide

/-- C7: on a sink with a nil handle and fresh counters, a failing lazy
create returns zero bytes and the underlying creation error, records no
file and leaves the handle nil; and on a sink whose rotation switch
fires, a failing post-rotation create does the same, after which the next
write attempts creation again (a succeeding create then records a file). -/
theorem c7_create_failure :
    (∀ (ws : WriteSplitter) (p : List Nat) (env : WriteEnv) (fs : Fs) (e : GoErr),
      ws.handle = none → ws.numBytes = 0 → ws.numLines = 0 →
      env.lazyCreate.fail = some e →
      (ws.Write p env fs).2.2 = (0, some e)
      ∧ (ws.Write p env fs).1.handle = none
      ∧ (ws.Write p env fs).2.1 = fs)
    ∧ (∀ (ws : WriteSplitter) (h : FileHandle) (p : List Nat) (env : WriteEnv) (fs : Fs)
        (e : GoErr),
      ws.handle = some h → ws.rotCond = true → env.rotCreate.fail = some e →
      (ws.Write p env fs).2.2 = (0, some e)
      ∧ (ws.Write p env fs).1.handle = none
      ∧ (ws.Write p env fs).2.1 = fs
      ∧ ∀ (p2 : List Nat) (env2 : WriteEnv), env2.lazyCreate.fail = none →
          ((ws.Write p env fs).1.Write p2 env2 fs).2.1.created.length
            = fs.created.length + 1) := by
  constructor
  · intro ws p env fs e hh hb0 hl0 hf
    obtain ⟨hhd, hfs, herr, hb, hl, hLp, hBp⟩ := create_fail_proj ws env.lazyCreate fs e hf
    have hrc : (ws.create env.lazyCreate fs).1.rotCond = false :=
      rotCond_zero _ (by rw [hb, hb0]) (by rw [hl, hl0])
    simp only [WriteSplitter.Write, hh, hrc]
    simp [herr, hhd, hfs]
  · intro ws h p env fs e hh hr hf
    have hcb : (ws.Close env.closeRes).1.numBytes = 0 := by
      simp [WriteSplitter.Close, hh]
    have hcl : (ws.Close env.closeRes).1.numLines = 0 := by
      simp [WriteSplitter.Close, hh]
    obtain ⟨hhd, hfs, herr, hb, hl, hLp, hBp⟩ :=
      create_fail_proj (ws.Close env.closeRes).1 env.rotCreate fs e hf
    have hmain : ws.Write p env fs =
        (((ws.Close env.closeRes).1.create env.rotCreate fs).1, fs, 0, some e) := by
      simp only [WriteSplitter.Write, hh, hr]
      simp [herr, hfs]
    rw [hmain]
    refine ⟨rfl, hhd, rfl, fun p2 env2 hf2 => ?_⟩
    have hrc1 : ((ws.Close env.closeRes).1.create env.rotCreate fs).1.rotCond = false :=
      rotCond_zero _ (by rw [hb, hcb]) (by rw [hl, hcl])
    exact (write_lazy_norot _ p2 env2 fs hhd hrc1 hf2).1

/-- C7 witness: a fresh line-mode sink whose lazy create fails reports
the underlying error and zero bytes; a sink due for rotation whose
post-rotation create fails reports its underlying error and zero bytes. -/
theorem c7_witness :
    ((LineSplitter 2 "d" "x").Write [1] failEnv fsEmpty).2.2 = (0, some (GoErr.osCreate 3))
    ∧ (wsRot.Write [1] failEnv fsEmpty).2.2 = (0, some (GoErr.osCreate 4)) :=
  ⟨(c7_create_failure.1 (LineSplitter 2 "d" "x") [1] failEnv fsEmpty
      (GoErr.osCreate 3) rfl rfl rfl rfl).1,
   (c7_create_failure.2 wsRot { name := "f", isOpen := true } [1] failEnv fsEmpty
      (GoErr.osCreate 4) rfl (by decide) rfl).1⟩

/-- A write on a sink with non-positive limit and a present handle never
creates a file: the filesystem is untouched and the handle and limit are
preserved. -/
theorem write_nonpos_keeps (ws : WriteSplitter) (h : FileHandle) (p : List Nat)
    (env : WriteEnv) (fs : Fs) (hL : ws.Limit ≤ 0) (hh : ws.handle = some h) :
    (ws.Write p env fs).2.1 = fs
    ∧ (ws.Write p env fs).1.handle = some h
    ∧ (ws.Write p env fs).1.Limit = ws.Limit := by
  have hrc : ws.rotCond = false := by
    unfold WriteSplitter.rotCond
    have h1 : decide (ws.Limit > 0) = false := decide_eq_false (by omega)
    simp [h1]
  rw [write_open_norot ws h p env fs hh hrc]
  exact ⟨rfl, hh, rfl⟩

/-- Running any sequence of writes on a sink with non-positive limit and
a present handle leaves the filesystem unchanged. -/
theorem runWrites_nonpos (calls : List (List Nat × WriteEnv)) :
    ∀ (ws : WriteSplitter) (fs : Fs) (h : FileHandle),
      ws.Limit ≤ 0 → ws.handle = some h → (runWrites ws fs calls).2 = fs := by
  induction calls with
  | nil => intro ws fs h _ _; rfl
  | cons c rest ih =>
    intro ws fs h hL hh
    obtain ⟨p, env⟩ := c
    have hk := write_nonpos_keeps ws h p env fs hL hh
    have hstep : runWrites ws fs ((p, env) :: rest)
        = runWrites (ws.Write p env fs).1 (ws.Write p env fs).2.1 rest := rfl
    rw [hstep,
      ih (ws.Write p env fs).1 (ws.Write p env fs).2.1 h (by rw [hk.2.2]; exact hL) hk.2.1,
      hk.1]

/-- Core of the limit-zero single-file property for an arbitrary fresh
sink state: one succeeding first write, then any further writes, create
exactly one file in total. -/
theorem c4_core (ws0 : WriteSplitter) (p0 : List Nat) (env0 : WriteEnv)
    (calls : List (List Nat × WriteEnv)) (hL : ws0.Limit ≤ 0)
    (hh : ws0.handle = none) (hb0 : ws0.numBytes = 0) (hl0 : ws0.numLines = 0)
    (hf : env0.lazyCreate.fail = none) :
    (runWrites ws0 { created := [] } ((p0, env0) :: calls)).2.created.length = 1 := by
  have hw := write_lazy_norot ws0 p0 env0 { created := [] } hh
    (rotCond_zero ws0 hb0 hl0) hf
  obtain ⟨hd0, hhd, _⟩ := hw.2.2.2.2.2.2
  have hstep : runWrites ws0 { created := [] } ((p0, env0) :: calls)
      = runWrites (ws0.Write p0 env0 { created := [] }).1
          (ws0.Write p0 env0 { created := [] }).2.1 calls := rfl
  rw [hstep,
    runWrites_nonpos calls (ws0.Write p0 env0 { created := [] }).1
      (ws0.Write p0 env0 { created := [] }).2.1 hd0
      (by rw [hw.2.2.2.2.2.1]; exact hL) hhd,
    hw.1]
  rfl

/-- C4: a sink built by either constructor with limit at most zero never
rotates: after one write with a succeeding lazy create followed by any
number of further write calls with any payloads and any scripted
outcomes, exactly one file has been created. -/
theorem c4_single_file (limit : Int) (d px : String) (b : Bool)
    (p0 : List Nat) (env0 : WriteEnv) (calls : List (List Nat × WriteEnv))
    (hL : limit ≤ 0) (hf : env0.lazyCreate.fail = none) :
    (runWrites (if b then ByteSplitter limit d px else LineSplitter limit d px)
        { created := [] } ((p0, env0) :: calls)).2.created.length = 1 := by
  cases b with
  | true => exact c4_core (ByteSplitter limit d px) p0 env0 calls hL rfl rfl rfl hf
  | false => exact c4_core (LineSplitter limit d px) p0 env0 calls hL rfl rfl rfl hf

/-- C4 witness: a line-mode sink with limit zero, fed three writes of
different sizes, ends with exactly one created file. -/
theorem c4_witness :
    (runWrites (if false then ByteSplitter 0 "d" "x" else LineSplitter 0 "d" "x")
        { created := [] } (([1], okEnv) :: [([2, 3], okEnv), ([], okEnv0)])).2.created.length
      = 1 :=
  c4_single_file 0 "d" "x" false [1] okEnv [([2, 3], okEnv), ([], okEnv0)] (by decide) rfl
